import Mathlib

/-!
# Verification of the Remotive job-finder filter/score/sort pipeline

Shallow embedding of the core logic of `src/main.py`: the filter predicate
`passes_filters`, the three sub-scorers (`recency_score`, `keyword_score`,
`salary_score`), the aggregate `job_score`, and the filter → score → stable
descending sort pipeline, together with proofs of the specification claims.

Modelling conventions:
* Python `float` arithmetic is modelled exactly over `ℚ` (the scores involved
  are small rationals).
* Instants (`datetime` values normalized to UTC) are modelled as `Int` epoch
  seconds; `datetime.fromisoformat` composed with the UTC normalization of
  `parse_iso_date` is an oracle parameter `parseISO : String → Option Int`
  (`none` models a raised `ValueError`); "now" is an explicit `Int` parameter.
* A Python job dict is modelled with its `job.get(key, "")` defaults already
  applied: the textual fields are plain `String`s (an absent key is `""`),
  and the `salary` field keeps its dynamic type (`PyVal`).
-/

namespace Remotive

/-- Python's `str.lower()` on a string, modelled character-wise. -/
def pyLower (s : String) : String := ⟨s.data.map Char.toLower⟩

/-- `startsWithCL n h` is true iff the char list `n` is a prefix of `h`
(helper for Python's substring operator `in`). -/
def startsWithCL : List Char → List Char → Bool
  | [], _ => true
  | _ :: _, [] => false
  | x :: xs, y :: ys => x == y && startsWithCL xs ys

/-- `containsSub n h` is true iff the char list `n` occurs contiguously inside
`h`: Python's `n in h` on strings. -/
def containsSub (needle : List Char) : List Char → Bool
  | [] => needle.isEmpty
  | y :: ys => startsWithCL needle (y :: ys) || containsSub needle ys

/-- `KEYWORDS` from `src/main.py`: the default keyword filter. -/
def KEYWORDS : List String := ["python", "ai", "data"]

/-- `CATEGORY_FILTER` from `src/main.py` (empty = no category filter). -/
def CATEGORY_FILTER : String := ""

/-- `MAX_DAYS_OLD` from `src/main.py`. -/
def MAX_DAYS_OLD : Int := 30

/-- `WEIGHT_RECENCY` from `src/main.py`. -/
def WEIGHT_RECENCY : ℚ := 0.50

/-- `WEIGHT_KEYWORDS` from `src/main.py`. -/
def WEIGHT_KEYWORDS : ℚ := 0.40

/-- `WEIGHT_SALARY` from `src/main.py`. -/
def WEIGHT_SALARY : ℚ := 0.10

/-- `RECENCY_CUTOFF_DAYS` from `src/main.py`. -/
def RECENCY_CUTOFF_DAYS : Int := 7

/-- `RECENCY_SLOPE_DENOM` from `src/main.py`. -/
def RECENCY_SLOPE_DENOM : ℚ := 14

/-- `parse_iso_date` from `src/main.py`, with `datetime.fromisoformat` plus
UTC normalization abstracted as the oracle `parseISO` (`none` models a raised
`ValueError`).  The source also returns `None` when the input is `None` or
`""`; after `job.get("publication_date", "")` defaulting, the absent case is
the `""` case. -/
def parse_iso_date (parseISO : String → Option Int) (date_str : String) :
    Option Int :=
  if date_str = "" then none else parseISO date_str

/-- `days_since` from `src/main.py`: whole days from `posted_dt` to `now`
(`timedelta.days` floors), with the sentinel `9999` when there is no date. -/
def days_since (now : Int) (posted_dt : Option Int) : Int :=
  match posted_dt with
  | none => 9999
  | some t => Int.fdiv (now - t) 86400

/-- `keyword_match_count` from `src/main.py`: lower-cases the text once and
counts, over the keyword list, how many (lower-cased) keywords occur as a
substring; each list entry contributes at most 1.  A `None` text is treated
as `""`. -/
def keyword_match_count (text : Option String) (keywords : List String) : Nat :=
  let text_lower := pyLower (text.getD "")
  keywords.foldl
    (fun count kw => if containsSub (pyLower kw).data text_lower.data then count + 1 else count)
    0

/-- `recency_score` from `src/main.py`. -/
def recency_score (days_old : Int) : ℚ :=
  if RECENCY_CUTOFF_DAYS < days_old then 0
  else max 0 (1 - (days_old : ℚ) / RECENCY_SLOPE_DENOM)

/-- `keyword_score` from `src/main.py`. -/
def keyword_score (match_count : Nat) (total_keywords : Nat) : ℚ :=
  if total_keywords = 0 then 0
  else (match_count : ℚ) / (total_keywords : ℚ)

/-- A dynamically-typed Python value as seen by `salary_score`: `None`, a
string, or any other (non-string, non-`None`) value. -/
inductive PyVal where
  | none
  | str (s : String)
  | other
deriving DecidableEq

/-- Python's `salary_value.strip() == ""` test: true iff every character of
the string is whitespace. -/
def stripIsEmpty (s : String) : Bool := s.data.all Char.isWhitespace

/-- `salary_score` from `src/main.py`: 1 if salary exists (and, when textual,
is not blank), else 0. -/
def salary_score (salary_value : PyVal) : ℚ :=
  match salary_value with
  | .none => 0
  | .str s => if stripIsEmpty s then 0 else 1
  | .other => 1

/-- `job_score` from `src/main.py`: the weighted aggregate. -/
def job_score (r k s : ℚ) : ℚ :=
  WEIGHT_RECENCY * r + WEIGHT_KEYWORDS * k + WEIGHT_SALARY * s

/-- A job listing as consumed by the core, with the `job.get(key, "")`
defaults of `src/main.py` already applied to the textual fields. -/
structure Job where
  title : String
  description : String
  category : String
  publication_date : String
  company_name : String
  url : String
  salary : PyVal
deriving DecidableEq

/-- `passes_filters` from `src/main.py`: keyword, category and recency
filters, each toggleable, evaluated in that order. -/
def passes_filters (job : Job) (keywords : List String) (category_filter : String)
    (max_days_old : Int) (parseISO : String → Option Int) (now : Int) : Bool :=
  if 0 < keywords.length ∧
      keyword_match_count (some (job.title ++ " " ++ job.description)) keywords = 0 then
    false
  else if category_filter ≠ "" ∧ job.category ≠ category_filter then
    false
  else if max_days_old <
      days_since now (parse_iso_date parseISO job.publication_date) then
    false
  else true

/-- The record appended to `filtered_jobs` in `src/main.py` for each admitted
listing. -/
structure ScoredListing where
  title : String
  company : String
  category : String
  publication_date : String
  days_old : Int
  salary : PyVal
  keyword_match_count : Nat
  recency_score : ℚ
  keyword_score : ℚ
  salary_score : ℚ
  job_score : ℚ
  url : String
deriving DecidableEq

/-- The body of the filter-and-score loop of `src/main.py` (lines 192–232)
for one admitted job: computes days-old, match count, the three sub-scores
and the aggregate, and materializes the `ScoredListing`. -/
def score_job (now : Int) (parseISO : String → Option Int)
    (user_keywords : List String) (job : Job) : ScoredListing :=
  { title := job.title
    company := job.company_name
    category := job.category
    publication_date := job.publication_date
    days_old := days_since now (parse_iso_date parseISO job.publication_date)
    salary := job.salary
    keyword_match_count :=
      keyword_match_count (some (job.title ++ " " ++ job.description)) user_keywords
    recency_score := recency_score (days_since now (parse_iso_date parseISO job.publication_date))
    keyword_score :=
      keyword_score
        (keyword_match_count (some (job.title ++ " " ++ job.description)) user_keywords)
        user_keywords.length
    salary_score := salary_score job.salary
    job_score :=
      job_score
        (recency_score (days_since now (parse_iso_date parseISO job.publication_date)))
        (keyword_score
          (keyword_match_count (some (job.title ++ " " ++ job.description)) user_keywords)
          user_keywords.length)
        (salary_score job.salary)
    url := job.url }

/-- The `filtered_jobs` list of `src/main.py` before sorting: one
`ScoredListing` per admitted job, in input order. -/
def filtered_jobs (now : Int) (parseISO : String → Option Int)
    (user_keywords : List String) (category_filter : String) (max_days_old : Int)
    (jobs_list : List Job) : List ScoredListing :=
  (jobs_list.filter
      (fun job => passes_filters job user_keywords category_filter max_days_old parseISO now)).map
    (score_job now parseISO user_keywords)

/-- One step of the stable descending insertion modelling Python's stable
`list.sort(key=..., reverse=True)`: `x` is placed before the first element
whose score is ≤ its own, so among equal scores earlier input stays first. -/
def insertByScoreDesc (x : ScoredListing) : List ScoredListing → List ScoredListing
  | [] => [x]
  | y :: ys =>
    if y.job_score ≤ x.job_score then x :: y :: ys
    else y :: insertByScoreDesc x ys

/-- Stable sort by `job_score` descending: the model of
`filtered_jobs.sort(key=lambda x: x["job_score"], reverse=True)` in
`src/main.py` (CPython's sort is stable, and `reverse=True` keeps equal
elements in their original order). -/
def sortByScoreDesc : List ScoredListing → List ScoredListing
  | [] => []
  | x :: xs => insertByScoreDesc x (sortByScoreDesc xs)

/-- The full core pipeline of `src/main.py`: filter, score, then sort by
aggregate score descending (stably). -/
def ranked_jobs (now : Int) (parseISO : String → Option Int)
    (user_keywords : List String) (category_filter : String) (max_days_old : Int)
    (jobs_list : List Job) : List ScoredListing :=
  sortByScoreDesc (filtered_jobs now parseISO user_keywords category_filter max_days_old jobs_list)

/-! ## Helper lemmas -/

theorem foldl_if_count (p : String → Bool) (l : List String) :
    ∀ n : Nat, l.foldl (fun count kw => if p kw then count + 1 else count) n = n + l.countP p := by
  induction l with
  | nil => intro n; simp
  | cons kw l ih =>
    intro n
    by_cases h : p kw
    · simp [h, ih, List.countP_cons]
      omega
    · simp [h, ih, List.countP_cons]

theorem keyword_match_count_eq_countP (text : Option String) (keywords : List String) :
    keyword_match_count text keywords =
      keywords.countP (fun kw => containsSub (pyLower kw).data (pyLower (text.getD "")).data) := by
  unfold keyword_match_count
  rw [foldl_if_count]
  simp

theorem recency_score_nonneg (d : Int) : 0 ≤ recency_score d := by
  unfold recency_score
  split
  · exact le_refl 0
  · exact le_max_left 0 _

theorem recency_score_le_one {d : Int} (hd : 0 ≤ d) : recency_score d ≤ 1 := by
  unfold recency_score
  split
  · norm_num
  · refine max_le (by norm_num) ?_
    have h14 : (0 : ℚ) ≤ (d : ℚ) / RECENCY_SLOPE_DENOM := by
      refine div_nonneg ?_ (by norm_num [RECENCY_SLOPE_DENOM])
      exact_mod_cast hd
    linarith

theorem keyword_score_nonneg (m t : Nat) : 0 ≤ keyword_score m t := by
  unfold keyword_score
  split
  · exact le_refl 0
  · positivity

theorem keyword_score_le_one {m t : Nat} (h : m ≤ t) : keyword_score m t ≤ 1 := by
  unfold keyword_score
  split
  · norm_num
  · rename_i ht
    rw [div_le_one (by exact_mod_cast Nat.pos_of_ne_zero ht)]
    exact_mod_cast h

theorem salary_score_zero_or_one (v : PyVal) : salary_score v = 0 ∨ salary_score v = 1 := by
  cases v with
  | none => exact Or.inl rfl
  | str s =>
    by_cases h : stripIsEmpty s
    · exact Or.inl (by simp [salary_score, h])
    · exact Or.inr (by simp [salary_score, h])
  | other => exact Or.inr rfl

theorem salary_score_nonneg (v : PyVal) : 0 ≤ salary_score v := by
  rcases salary_score_zero_or_one v with h | h <;> norm_num [h]

theorem salary_score_le_one (v : PyVal) : salary_score v ≤ 1 := by
  rcases salary_score_zero_or_one v with h | h <;> norm_num [h]

theorem job_score_nonneg {r k s : ℚ} (hr : 0 ≤ r) (hk : 0 ≤ k) (hs : 0 ≤ s) :
    0 ≤ job_score r k s := by
  unfold job_score WEIGHT_RECENCY WEIGHT_KEYWORDS WEIGHT_SALARY
  norm_num
  linarith

theorem job_score_le_weight_sum {r k s : ℚ} (hr : r ≤ 1) (hk : k ≤ 1) (hs : s ≤ 1) :
    job_score r k s ≤ WEIGHT_RECENCY * 1 + WEIGHT_KEYWORDS * 1 + WEIGHT_SALARY * 1 := by
  unfold job_score WEIGHT_RECENCY WEIGHT_KEYWORDS WEIGHT_SALARY
  norm_num
  linarith

/-! ## Claim theorems -/

/-- C1: for every integer `daysOld`, `recency_score` returns 0 when
`daysOld > 7` and `max 0 (1 - daysOld/14)` otherwise; in particular it is
1 at day 0, 0.5 at day 7, and 0 at days 8 and 14. -/
theorem recency_score_spec (daysOld : Int) :
    (7 < daysOld → recency_score daysOld = 0) ∧
    (daysOld ≤ 7 → recency_score daysOld = max 0 (1 - (daysOld : ℚ) / 14)) ∧
    recency_score 0 = 1 ∧ recency_score 7 = 0.5 ∧
    recency_score 8 = 0 ∧ recency_score 14 = 0 := by
  have hcut : RECENCY_CUTOFF_DAYS = 7 := rfl
  have hval : ∀ d : Int, d ≤ 7 → recency_score d = max 0 (1 - (d : ℚ) / 14) := by
    intro d hd
    unfold recency_score
    rw [hcut, if_neg (not_lt.mpr hd)]
    norm_num [RECENCY_SLOPE_DENOM]
  refine ⟨?_, hval daysOld, ?_, ?_, ?_, ?_⟩
  · intro h
    unfold recency_score
    rw [hcut, if_pos h]
  · rw [hval 0 (by norm_num)]
    norm_num
  · rw [hval 7 (by norm_num)]
    rw [max_eq_right (by norm_num)]
    norm_num
  · unfold recency_score
    rw [hcut, if_pos (by norm_num)]
  · unfold recency_score
    rw [hcut, if_pos (by norm_num)]

/-- Witness for C1 at `daysOld = 9` and `daysOld = 3`. -/
theorem recency_score_spec_witness :
    recency_score 9 = 0 ∧ recency_score 3 = max 0 (1 - (3 : ℚ) / 14) :=
  ⟨(recency_score_spec 9).1 (by norm_num), (recency_score_spec 3).2.1 (by norm_num)⟩

/-- C5: `keyword_score` is `matchCount / totalKeywords` when the total is
positive and 0 when it is 0 (no division by zero); it lies in `[0,1]` when
`matchCount ≤ totalKeywords`, and is 0 at `matchCount = 0`. -/
theorem keyword_score_spec (matchCount totalKeywords : Nat) :
    (totalKeywords = 0 → keyword_score matchCount totalKeywords = 0) ∧
    (0 < totalKeywords →
      keyword_score matchCount totalKeywords = (matchCount : ℚ) / (totalKeywords : ℚ)) ∧
    (0 < totalKeywords → keyword_score 0 totalKeywords = 0) ∧
    (matchCount ≤ totalKeywords →
      0 ≤ keyword_score matchCount totalKeywords ∧
        keyword_score matchCount totalKeywords ≤ 1) := by
  refine ⟨?_, ?_, ?_, ?_⟩
  · intro h
    unfold keyword_score
    rw [if_pos h]
  · intro h
    unfold keyword_score
    rw [if_neg (Nat.pos_iff_ne_zero.mp h)]
  · intro h
    unfold keyword_score
    rw [if_neg (Nat.pos_iff_ne_zero.mp h)]
    simp
  · intro h
    exact ⟨keyword_score_nonneg matchCount totalKeywords, keyword_score_le_one h⟩

/-- Witness for C5 at `matchCount = 1`, `totalKeywords = 2` (and the
zero-total case at `totalKeywords = 0`). -/
theorem keyword_score_spec_witness :
    keyword_score 1 0 = 0 ∧
    keyword_score 1 2 = (1 : ℚ) / 2 ∧
    keyword_score 0 2 = 0 ∧
    (0 ≤ keyword_score 1 2 ∧ keyword_score 1 2 ≤ 1) := by
  refine ⟨(keyword_score_spec 1 0).1 rfl, ?_, (keyword_score_spec 0 2).2.2.1 (by norm_num),
    (keyword_score_spec 1 2).2.2.2 (by norm_num)⟩
  have h := (keyword_score_spec 1 2).2.1 (by norm_num)
  rw [h]
  norm_num

/-- C7: `salary_score` returns exactly 0 or 1: 0 when the value is `None` or
a blank string, 1 for any non-blank string and any non-string non-`None`
value. -/
theorem salary_score_spec (v : PyVal) :
    (salary_score v = 0 ∨ salary_score v = 1) ∧
    (v = PyVal.none → salary_score v = 0) ∧
    (∀ s, v = PyVal.str s → stripIsEmpty s = true → salary_score v = 0) ∧
    (∀ s, v = PyVal.str s → stripIsEmpty s = false → salary_score v = 1) ∧
    (v = PyVal.other → salary_score v = 1) := by
  refine ⟨salary_score_zero_or_one v, ?_, ?_, ?_, ?_⟩
  · rintro rfl
    rfl
  · rintro s rfl hs
    simp [salary_score, hs]
  · rintro s rfl hs
    simp [salary_score, hs]
  · rintro rfl
    rfl

/-- Witness for C7 at `None`, `""`, `"  "`, `"$100k"` and a non-string
value. -/
theorem salary_score_spec_witness :
    salary_score PyVal.none = 0 ∧
    salary_score (PyVal.str "") = 0 ∧
    salary_score (PyVal.str "  ") = 0 ∧
    salary_score (PyVal.str "$100k") = 1 ∧
    salary_score PyVal.other = 1 :=
  ⟨(salary_score_spec PyVal.none).2.1 rfl,
    (salary_score_spec (PyVal.str "")).2.2.1 "" rfl (by decide),
    (salary_score_spec (PyVal.str "  ")).2.2.1 "  " rfl (by decide),
    (salary_score_spec (PyVal.str "$100k")).2.2.2.1 "$100k" rfl (by decide),
    (salary_score_spec PyVal.other).2.2.2.2 rfl⟩

/-- C6: `keyword_match_count` counts, with multiplicity, the list entries
whose lower-cased form occurs as a substring of the lower-cased text; it is
permutation-invariant, treats a `None` text as `""`, credits each entry at
most once (so the count is at most the list length), and depends only on the
lower-cased keywords (case-insensitivity). -/
theorem keyword_match_count_spec (text : Option String) (keywords : List String) :
    keyword_match_count text keywords =
      (keywords.filter
          (fun kw => containsSub (pyLower kw).data (pyLower (text.getD "")).data)).length ∧
    (∀ keywords2, keywords.Perm keywords2 →
        keyword_match_count text keywords = keyword_match_count text keywords2) ∧
    keyword_match_count none keywords = keyword_match_count (some "") keywords ∧
    keyword_match_count text keywords ≤ keywords.length ∧
    keyword_match_count text keywords =
      (keywords.map pyLower).countP
        (fun kw => containsSub kw.data (pyLower (text.getD "")).data) := by
  refine ⟨?_, ?_, rfl, ?_, ?_⟩
  · rw [keyword_match_count_eq_countP, List.countP_eq_length_filter]
  · intro keywords2 hperm
    rw [keyword_match_count_eq_countP, keyword_match_count_eq_countP]
    exact hperm.countP_eq _
  · rw [keyword_match_count_eq_countP]
    exact List.countP_le_length _
  · rw [keyword_match_count_eq_countP, List.countP_map]
    rfl

/-- Witness for C6: permutation invariance applied at a concrete keyword
list, plus the spec's concrete case-insensitivity example. -/
theorem keyword_match_count_spec_witness :
    keyword_match_count (some "ai and data jobs") ["ai", "data"] =
      keyword_match_count (some "ai and data jobs") ["data", "ai"] ∧
    keyword_match_count (some "Remote Python Role") ["PYTHON"] = 1 :=
  ⟨(keyword_match_count_spec (some "ai and data jobs") ["ai", "data"]).2.1
      ["data", "ai"] (List.Perm.swap "data" "ai" []),
    by decide⟩

/-- C2: whenever the keyword list is non-empty and no keyword matches the
title-space-description text, `passes_filters` rejects the listing,
whatever its category or recency. -/
theorem zero_matches_rejected (job : Job) (keywords : List String)
    (category_filter : String) (max_days_old : Int)
    (parseISO : String → Option Int) (now : Int)
    (hk : keywords ≠ [])
    (h0 : keyword_match_count (some (job.title ++ " " ++ job.description)) keywords = 0) :
    passes_filters job keywords category_filter max_days_old parseISO now = false := by
  have hlen : 0 < keywords.length := List.length_pos.mpr hk
  unfold passes_filters
  rw [if_pos ⟨hlen, h0⟩]

/-- Witness for C2: a "Chef" listing with no keyword match is rejected even
though it is recent and the category filter is off. -/
theorem zero_matches_rejected_witness :
    passes_filters
        { title := "Chef", description := "Cook things", category := "Food",
          publication_date := "", company_name := "Co", url := "u",
          salary := PyVal.str "$1" }
        ["python"] "" 99999 (fun _ => (none : Option Int)) 0 = false :=
  zero_matches_rejected
    { title := "Chef", description := "Cook things", category := "Food",
      publication_date := "", company_name := "Co", url := "u",
      salary := PyVal.str "$1" }
    ["python"] "" 99999 (fun _ => (none : Option Int)) 0
    (by decide) (by decide)

/-! ## Sorting lemmas -/

theorem insertByScoreDesc_perm (x : ScoredListing) (l : List ScoredListing) :
    (insertByScoreDesc x l).Perm (x :: l) := by
  induction l with
  | nil => exact List.Perm.refl _
  | cons y ys ih =>
    unfold insertByScoreDesc
    split
    · exact List.Perm.refl _
    · exact (List.Perm.cons y ih).trans (List.Perm.swap x y ys)

theorem sortByScoreDesc_perm (l : List ScoredListing) : (sortByScoreDesc l).Perm l := by
  induction l with
  | nil => exact List.Perm.refl _
  | cons x xs ih => exact (insertByScoreDesc_perm x _).trans (List.Perm.cons x ih)

theorem pairwise_insertByScoreDesc (x : ScoredListing) {l : List ScoredListing}
    (h : l.Pairwise (fun a b => b.job_score ≤ a.job_score)) :
    (insertByScoreDesc x l).Pairwise (fun a b => b.job_score ≤ a.job_score) := by
  induction l with
  | nil => simp [insertByScoreDesc]
  | cons y ys ih =>
    rw [List.pairwise_cons] at h
    obtain ⟨hy, hys⟩ := h
    unfold insertByScoreDesc
    split
    · rename_i hxy
      rw [List.pairwise_cons]
      refine ⟨?_, List.pairwise_cons.mpr ⟨hy, hys⟩⟩
      intro z hz
      rcases List.mem_cons.mp hz with rfl | hz2
      · exact hxy
      · exact (hy z hz2).trans hxy
    · rename_i hxy
      push_neg at hxy
      rw [List.pairwise_cons]
      refine ⟨?_, ih hys⟩
      intro z hz
      rcases List.mem_cons.mp ((insertByScoreDesc_perm x ys).mem_iff.mp hz) with rfl | hz2
      · exact le_of_lt hxy
      · exact hy z hz2

theorem pairwise_sortByScoreDesc (l : List ScoredListing) :
    (sortByScoreDesc l).Pairwise (fun a b => b.job_score ≤ a.job_score) := by
  induction l with
  | nil => simp [sortByScoreDesc]
  | cons x xs ih => exact pairwise_insertByScoreDesc x ih

theorem filter_insertByScoreDesc (x : ScoredListing) (l : List ScoredListing) (q : ℚ) :
    (insertByScoreDesc x l).filter (fun z => decide (z.job_score = q)) =
      (x :: l).filter (fun z => decide (z.job_score = q)) := by
  induction l with
  | nil => rfl
  | cons y ys ih =>
    unfold insertByScoreDesc
    split
    · rfl
    · rename_i hxy
      push_neg at hxy
      simp only [List.filter_cons, ih]
      by_cases hx : x.job_score = q
      · have hy : ¬ y.job_score = q := by
          intro hyq
          rw [hx, hyq] at hxy
          exact lt_irrefl q hxy
        simp [hx, hy]
      · simp [hx]

theorem filter_sortByScoreDesc (l : List ScoredListing) (q : ℚ) :
    (sortByScoreDesc l).filter (fun z => decide (z.job_score = q)) =
      l.filter (fun z => decide (z.job_score = q)) := by
  induction l with
  | nil => rfl
  | cons x xs ih =>
    unfold sortByScoreDesc
    rw [filter_insertByScoreDesc]
    simp only [List.filter_cons, ih]

/-- C3: the pipeline output is sorted by aggregate score in descending
order, and it is a stable sort: for every score value the listings carrying
that score appear in the output exactly as they appear in the pre-sort
admitted sequence, which itself preserves input order. -/
theorem ranked_sorted_stable (now : Int) (parseISO : String → Option Int)
    (user_keywords : List String) (category_filter : String) (max_days_old : Int)
    (jobs_list : List Job) :
    (ranked_jobs now parseISO user_keywords category_filter max_days_old jobs_list).Pairwise
      (fun a b => b.job_score ≤ a.job_score) ∧
    (∀ q : ℚ,
      (ranked_jobs now parseISO user_keywords category_filter max_days_old jobs_list).filter
          (fun z => decide (z.job_score = q)) =
        ((jobs_list.filter (fun job =>
              passes_filters job user_keywords category_filter max_days_old parseISO now)).map
            (score_job now parseISO user_keywords)).filter
          (fun z => decide (z.job_score = q))) ∧
    (ranked_jobs now parseISO user_keywords category_filter max_days_old jobs_list).Perm
      (filtered_jobs now parseISO user_keywords category_filter max_days_old jobs_list) :=
  ⟨pairwise_sortByScoreDesc _,
    fun q => filter_sortByScoreDesc
      (filtered_jobs now parseISO user_keywords category_filter max_days_old jobs_list) q,
    sortByScoreDesc_perm _⟩

/-- C9: the pipeline is deterministic: with all inputs (including "now")
fixed, two runs produce the same output, and each admitted listing is
scored and materialized exactly once (the output is a permutation of the
one-`ScoredListing`-per-admitted-job list, so it has exactly one entry per
admitted listing). -/
theorem pipeline_deterministic (now : Int) (parseISO : String → Option Int)
    (user_keywords : List String) (category_filter : String) (max_days_old : Int)
    (jobs_list : List Job) :
    ranked_jobs now parseISO user_keywords category_filter max_days_old jobs_list =
      ranked_jobs now parseISO user_keywords category_filter max_days_old jobs_list ∧
    (ranked_jobs now parseISO user_keywords category_filter max_days_old jobs_list).Perm
      ((jobs_list.filter (fun job =>
          passes_filters job user_keywords category_filter max_days_old parseISO now)).map
        (score_job now parseISO user_keywords)) ∧
    (ranked_jobs now parseISO user_keywords category_filter max_days_old jobs_list).length =
      (jobs_list.filter (fun job =>
          passes_filters job user_keywords category_filter max_days_old parseISO now)).length := by
  refine ⟨rfl, sortByScoreDesc_perm _, ?_⟩
  rw [show ranked_jobs now parseISO user_keywords category_filter max_days_old jobs_list =
      sortByScoreDesc (filtered_jobs now parseISO user_keywords category_filter max_days_old
        jobs_list) from rfl,
    (sortByScoreDesc_perm _).length_eq]
  simp [filtered_jobs]

/-- C4 counterexample: a listing with an absent publication date gets the
sentinel age 9999, yet it passes `passes_filters` when `maxDaysOld = 9999`,
because the age check `d_old > max_days_old` is strict — so "never passes
the age filter for every configured maxDaysOld" fails. -/
theorem sentinel_age_passes_huge_max :
    days_since 0 (parse_iso_date (fun _ => (none : Option Int)) "") = 9999 ∧
    passes_filters
        { title := "T", description := "D", category := "C", publication_date := "",
          company_name := "Co", url := "u", salary := PyVal.str "" }
        [] "" 9999 (fun _ => (none : Option Int)) 0 = true :=
  ⟨rfl, by decide⟩

/-- C4 (amended): an absent, empty or unparseable publication date makes
`parse_iso_date` return `none`, `days_since` return the sentinel 9999, and
the listing fail `passes_filters` for every `maxDaysOld < 9999` (for
`maxDaysOld ≥ 9999` the strict age check lets the sentinel through). -/
theorem missing_date_sentinel (job : Job) (keywords : List String)
    (category_filter : String) (max_days_old : Int)
    (parseISO : String → Option Int) (now : Int)
    (hbad : job.publication_date = "" ∨ parseISO job.publication_date = none)
    (hm : max_days_old < 9999) :
    parse_iso_date parseISO job.publication_date = none ∧
    days_since now (parse_iso_date parseISO job.publication_date) = 9999 ∧
    passes_filters job keywords category_filter max_days_old parseISO now = false := by
  have hparse : parse_iso_date parseISO job.publication_date = none := by
    rcases hbad with h | h
    · simp [parse_iso_date, h]
    · simp [parse_iso_date, h]
  refine ⟨hparse, ?_, ?_⟩
  · rw [hparse]
    rfl
  · unfold passes_filters
    rw [hparse]
    split
    · rfl
    · split
      · rfl
      · rw [if_pos]
        show max_days_old < days_since now none
        exact hm

/-- Witness for C4 (amended) at an empty publication date and
`maxDaysOld = 30`. -/
theorem missing_date_sentinel_witness :
    parse_iso_date (fun _ => (none : Option Int))
        (Job.publication_date
          { title := "T", description := "D", category := "C", publication_date := "",
            company_name := "Co", url := "u", salary := PyVal.str "" }) = none ∧
    days_since 5
        (parse_iso_date (fun _ => (none : Option Int))
          (Job.publication_date
            { title := "T", description := "D", category := "C", publication_date := "",
              company_name := "Co", url := "u", salary := PyVal.str "" })) = 9999 ∧
    passes_filters
        { title := "T", description := "D", category := "C", publication_date := "",
          company_name := "Co", url := "u", salary := PyVal.str "" }
        ["t"] "" 30 (fun _ => (none : Option Int)) 5 = false :=
  missing_date_sentinel
    { title := "T", description := "D", category := "C", publication_date := "",
      company_name := "Co", url := "u", salary := PyVal.str "" }
    ["t"] "" 30 (fun _ => (none : Option Int)) 5 (Or.inl rfl) (by decide)

/-- C10: any listing admitted under a non-empty keyword list gets a
recorded keyword match count of at least 1 in its `ScoredListing`, hence a
strictly positive keyword sub-score (filter and scorer use the same
title-space-description text and keyword list). -/
theorem admitted_positive_keyword_score (now : Int) (parseISO : String → Option Int)
    (user_keywords : List String) (category_filter : String) (max_days_old : Int)
    (job : Job)
    (hk : user_keywords ≠ [])
    (hp : passes_filters job user_keywords category_filter max_days_old parseISO now = true) :
    1 ≤ (score_job now parseISO user_keywords job).keyword_match_count ∧
    0 < (score_job now parseISO user_keywords job).keyword_score := by
  have hlen : 0 < user_keywords.length := List.length_pos.mpr hk
  have hcount :
      keyword_match_count (some (job.title ++ " " ++ job.description)) user_keywords ≠ 0 := by
    intro h0
    unfold passes_filters at hp
    rw [if_pos ⟨hlen, h0⟩] at hp
    exact Bool.false_ne_true hp
  refine ⟨Nat.one_le_iff_ne_zero.mpr hcount, ?_⟩
  show 0 < keyword_score
    (keyword_match_count (some (job.title ++ " " ++ job.description)) user_keywords)
    user_keywords.length
  unfold keyword_score
  rw [if_neg (Nat.pos_iff_ne_zero.mp hlen)]
  refine div_pos ?_ ?_
  · exact_mod_cast Nat.pos_of_ne_zero hcount
  · exact_mod_cast hlen

/-- Witness for C10: an "AI Engineer" listing admitted under keyword list
`["ai"]`. -/
theorem admitted_positive_keyword_score_witness :
    1 ≤ (score_job 0 (fun _ => (none : Option Int)) ["ai"]
          { title := "AI Engineer", description := "builds models", category := "Eng",
            publication_date := "", company_name := "Co", url := "u",
            salary := PyVal.str "$1" }).keyword_match_count ∧
    0 < (score_job 0 (fun _ => (none : Option Int)) ["ai"]
          { title := "AI Engineer", description := "builds models", category := "Eng",
            publication_date := "", company_name := "Co", url := "u",
            salary := PyVal.str "$1" }).keyword_score :=
  admitted_positive_keyword_score 0 (fun _ => (none : Option Int)) ["ai"] "" 10000
    { title := "AI Engineer", description := "builds models", category := "Eng",
      publication_date := "", company_name := "Co", url := "u",
      salary := PyVal.str "$1" }
    (by decide) (by decide)

/-- C8 counterexample: a future-dated listing (parsed instant one day after
"now") is admitted, and its materialized `ScoredListing` has a negative
`days_old` and a recency sub-score of `recency_score (-1) > 1` — so the
claimed invariants (`days_old ≥ 0` or sentinel, sub-scores in `[0,1]`) fail
on the pipeline as written. -/
theorem scored_listing_invariants_cex :
    ((ranked_jobs 0 (fun _ => (some 86400 : Option Int)) [] "" 30
          [{ title := "T", description := "D", category := "C",
             publication_date := "2099-01-01T00:00:00+00:00",
             company_name := "Co", url := "u", salary := PyVal.str "x" }]).all
        (fun x => decide (0 ≤ x.days_old))) = false ∧
    (ranked_jobs 0 (fun _ => (some 86400 : Option Int)) [] "" 30
          [{ title := "T", description := "D", category := "C",
             publication_date := "2099-01-01T00:00:00+00:00",
             company_name := "Co", url := "u", salary := PyVal.str "x" }]).map
        ScoredListing.recency_score = [recency_score (-1)] ∧
    1 < recency_score (-1) := by
  refine ⟨by decide, rfl, ?_⟩
  unfold recency_score RECENCY_CUTOFF_DAYS RECENCY_SLOPE_DENOM
  rw [if_neg (by norm_num), lt_max_iff]
  right
  norm_num

/-- C8 (amended): provided no listing in the input parses to a publication
instant later than "now" (no future-dated listings), every `ScoredListing`
materialized by the pipeline has `days_old ≥ 0` (the sentinel 9999 included),
a non-negative match count, all three sub-scores in `[0,1]`, and an
aggregate score in `[0, WEIGHT_RECENCY + WEIGHT_KEYWORDS + WEIGHT_SALARY]`. -/
theorem scored_listing_invariants (now : Int) (parseISO : String → Option Int)
    (user_keywords : List String) (category_filter : String) (max_days_old : Int)
    (jobs_list : List Job)
    (hpast : ∀ job ∈ jobs_list, ∀ t,
      parse_iso_date parseISO job.publication_date = some t → t ≤ now)
    (x : ScoredListing)
    (hx : x ∈ ranked_jobs now parseISO user_keywords category_filter max_days_old jobs_list) :
    0 ≤ x.days_old ∧
    0 ≤ x.keyword_match_count ∧
    0 ≤ x.recency_score ∧ x.recency_score ≤ 1 ∧
    0 ≤ x.keyword_score ∧ x.keyword_score ≤ 1 ∧
    0 ≤ x.salary_score ∧ x.salary_score ≤ 1 ∧
    0 ≤ x.job_score ∧
    x.job_score ≤ WEIGHT_RECENCY * 1 + WEIGHT_KEYWORDS * 1 + WEIGHT_SALARY * 1 := by
  have hx2 : x ∈ filtered_jobs now parseISO user_keywords category_filter max_days_old jobs_list :=
    (sortByScoreDesc_perm _).mem_iff.mp hx
  unfold filtered_jobs at hx2
  obtain ⟨job, hjf, rfl⟩ := List.mem_map.mp hx2
  obtain ⟨hjmem, hjpass⟩ := List.mem_filter.mp hjf
  have hd : 0 ≤ days_since now (parse_iso_date parseISO job.publication_date) := by
    rcases hp : parse_iso_date parseISO job.publication_date with _ | t
    · rw [days_since]
      norm_num
    · show 0 ≤ days_since now (some t)
      rw [days_since]
      refine Int.fdiv_nonneg ?_ (by norm_num)
      have := hpast job hjmem t hp
      omega
  have hmc :
      keyword_match_count (some (job.title ++ " " ++ job.description)) user_keywords ≤
        user_keywords.length := by
    rw [keyword_match_count_eq_countP]
    exact List.countP_le_length _
  refine ⟨hd, Nat.zero_le _, recency_score_nonneg _, recency_score_le_one hd,
    keyword_score_nonneg _ _, keyword_score_le_one hmc,
    salary_score_nonneg _, salary_score_le_one _, ?_, ?_⟩
  · exact job_score_nonneg (recency_score_nonneg _) (keyword_score_nonneg _ _)
      (salary_score_nonneg _)
  · exact job_score_le_weight_sum (recency_score_le_one hd) (keyword_score_le_one hmc)
      (salary_score_le_one _)

/-- Witness for C8 (amended): the single admitted listing of a concrete
run (whose publication date does not parse, so nothing is future-dated)
satisfies all the invariants. -/
theorem scored_listing_invariants_witness :
    0 ≤ (score_job 2 (fun _ => (none : Option Int)) ["data"]
          { title := "Data Analyst", description := "crunches data", category := "Eng",
            publication_date := "", company_name := "Co", url := "u",
            salary := PyVal.none }).days_old ∧
    0 ≤ (score_job 2 (fun _ => (none : Option Int)) ["data"]
          { title := "Data Analyst", description := "crunches data", category := "Eng",
            publication_date := "", company_name := "Co", url := "u",
            salary := PyVal.none }).keyword_match_count ∧
    0 ≤ (score_job 2 (fun _ => (none : Option Int)) ["data"]
          { title := "Data Analyst", description := "crunches data", category := "Eng",
            publication_date := "", company_name := "Co", url := "u",
            salary := PyVal.none }).recency_score ∧
    (score_job 2 (fun _ => (none : Option Int)) ["data"]
          { title := "Data Analyst", description := "crunches data", category := "Eng",
            publication_date := "", company_name := "Co", url := "u",
            salary := PyVal.none }).recency_score ≤ 1 ∧
    0 ≤ (score_job 2 (fun _ => (none : Option Int)) ["data"]
          { title := "Data Analyst", description := "crunches data", category := "Eng",
            publication_date := "", company_name := "Co", url := "u",
            salary := PyVal.none }).keyword_score ∧
    (score_job 2 (fun _ => (none : Option Int)) ["data"]
          { title := "Data Analyst", description := "crunches data", category := "Eng",
            publication_date := "", company_name := "Co", url := "u",
            salary := PyVal.none }).keyword_score ≤ 1 ∧
    0 ≤ (score_job 2 (fun _ => (none : Option Int)) ["data"]
          { title := "Data Analyst", description := "crunches data", category := "Eng",
            publication_date := "", company_name := "Co", url := "u",
            salary := PyVal.none }).salary_score ∧
    (score_job 2 (fun _ => (none : Option Int)) ["data"]
          { title := "Data Analyst", description := "crunches data", category := "Eng",
            publication_date := "", company_name := "Co", url := "u",
            salary := PyVal.none }).salary_score ≤ 1 ∧
    0 ≤ (score_job 2 (fun _ => (none : Option Int)) ["data"]
          { title := "Data Analyst", description := "crunches data", category := "Eng",
            publication_date := "", company_name := "Co", url := "u",
            salary := PyVal.none }).job_score ∧
    (score_job 2 (fun _ => (none : Option Int)) ["data"]
          { title := "Data Analyst", description := "crunches data", category := "Eng",
            publication_date := "", company_name := "Co", url := "u",
            salary := PyVal.none }).job_score ≤
      WEIGHT_RECENCY * 1 + WEIGHT_KEYWORDS * 1 + WEIGHT_SALARY * 1 :=
  scored_listing_invariants 2 (fun _ => (none : Option Int)) ["data"] "" 10000
    [{ title := "Data Analyst", description := "crunches data", category := "Eng",
       publication_date := "", company_name := "Co", url := "u", salary := PyVal.none }]
    (by
      intro job hj t ht
      rw [List.mem_singleton] at hj
      subst hj
      simp [parse_iso_date] at ht)
    (score_job 2 (fun _ => (none : Option Int)) ["data"]
      { title := "Data Analyst", description := "crunches data", category := "Eng",
        publication_date := "", company_name := "Co", url := "u", salary := PyVal.none })
    (by exact List.mem_singleton.mpr rfl)

end Remotive
